import Mathlib

set_option autoImplicit false

namespace FbScraper

/-! Model of the Syncer service (batch writer to the spreadsheet sink).
The `flushBuffer`, `bufferResult`, `scheduleFlush` and `shutdown` logic is
embedded as pure functions over an explicit buffer state; the nondeterminism
of the external sheet API is captured by a script assigning each write
attempt an outcome. -/

/-- A result consumed by the syncer from the results queue: the destination
sheet, the 1-based row reference, and the optional email/status payload
(either may be absent, in which case the write falls back to a default). -/
structure SyncResult where
  sheetId : String
  rowIndex : Nat
  email : Option String
  status : Option String
  deriving DecidableEq, Repr

/-- JavaScript `x || d` fallback on an optional string: `null` and the empty
string are falsy and yield the default. -/
def jsOr : Option String → String → String
  | none, d => d
  | some s, d => if s = "" then d else s

/-- Whether `rows[rowIndex - 2]` is a defined row of a sheet with `numRows`
data rows: the JS index `rowIndex - 2` must be nonnegative and in range
(row 1 is the header, so data row `i` lives at array index `i - 2`). -/
def rowExists (numRows rowIndex : Nat) : Bool :=
  2 ≤ rowIndex && rowIndex - 2 < numRows

/-- The cell contents written for one result: row reference, email cell
(defaulting to "Not found") and status cell (defaulting to "Done"). -/
def writtenRow (r : SyncResult) : Nat × String × String :=
  (r.rowIndex, jsOr r.email "Not found", jsOr r.status "Done")

/-- The row-update loop of `flushBuffer` for one destination: results whose
row exists are collected (in order) into the rows to save; results whose
row is missing are only logged, collected here as the skipped row list. -/
def updateRows (numRows : Nat) : List SyncResult → List (Nat × String × String) × List Nat
  | [] => ([], [])
  | r :: rest =>
      let p := updateRows numRows rest
      if rowExists numRows r.rowIndex then (writtenRow r :: p.1, p.2)
      else (p.1, r.rowIndex :: p.2)

/-- Outcome of one write attempt against the sheet API, as seen by the
catch-classification in `flushBuffer`: success, a rate-limit/quota error
(message containing "429" or "Quota exceeded"), or any other error. -/
inductive Attempt where
  | ok
  | rateLimit
  | otherError
  deriving DecidableEq, Repr

/-- Observable outcome of flushing one destination: the rows saved (in
order), the row references skipped because the row was missing, the backoff
delays waited, the number of attempts made, whether the destination's buffer
entry was cleared, whether the rate-limit retries were exhausted, and the
buffer entry contents after each attempt (`none` when it was deleted). -/
structure FlushOutcome where
  saved : List (Nat × String × String)
  skipped : List Nat
  delays : List Nat
  attempts : Nat
  bufferCleared : Bool
  exhausted : Bool
  trace : List (Option (List SyncResult))
  deriving DecidableEq, Repr

/-- The per-destination retry loop of `flushBuffer`:
`while (retries < maxRetries && !success)`. On success the rows are updated
and the destination's buffer entry is deleted; on a rate-limit error
`retries` is incremented and, if retries remain, a delay of
`2 ^ retries * 1000` ms is waited before the next attempt, while on
exhaustion the loop logs and exits keeping the buffer entry; on any other
error the buffer entry is deleted and the loop breaks. The `fuel` argument
makes the loop structural: it equals `maxRetries - retries` throughout. -/
def flushLoop (numRows : Nat) (results : List SyncResult) (script : Nat → Attempt)
    (maxRetries : Nat) : Nat → Nat → FlushOutcome
  | _, 0 => ⟨[], [], [], 0, false, false, []⟩
  | retries, fuel + 1 =>
      match script retries with
      | .ok =>
          let p := updateRows numRows results
          ⟨p.1, p.2, [], 1, true, false, [none]⟩
      | .otherError => ⟨[], [], [], 1, true, false, [none]⟩
      | .rateLimit =>
          let r := retries + 1
          if r < maxRetries then
            let rest := flushLoop numRows results script maxRetries r fuel
            ⟨rest.saved, rest.skipped, 2 ^ r * 1000 :: rest.delays, rest.attempts + 1,
              rest.bufferCleared, rest.exhausted, some results :: rest.trace⟩
          else ⟨[], [], [], 1, false, true, [some results]⟩

/-- Flushing one destination: the retry loop with `maxRetries = 3` starting
at `retries = 0`. -/
def flushSheet (numRows : Nat) (results : List SyncResult) (script : Nat → Attempt) :
    FlushOutcome :=
  flushLoop numRows results script 3 0 3

/-- An observable event of the syncer: timer cancellation, a synchronous
flush invocation, rearming the flush timer, closing the queue worker,
process exit, a backoff wait, or a saved row write. -/
inductive SyncEvent where
  | cancelTimer
  | flushCall
  | rearmTimer
  | closeWorker
  | exitProc
  | wait (ms : Nat)
  | write (sheetId : String) (rowIndex : Nat) (email status : String)
  deriving DecidableEq, Repr

/-- The chronological events of flushing one destination: all backoff waits
happen before the final successful save of the collected rows. -/
def outcomeEvents (sheetId : String) (o : FlushOutcome) : List SyncEvent :=
  o.delays.map SyncEvent.wait ++
    o.saved.map (fun s => SyncEvent.write sheetId s.1 s.2.1 s.2.2)

/-- The in-memory result buffer: destination sheet id mapped to the ordered
sequence of buffered results, in insertion order of the keys. -/
abbrev Buffer := List (String × List SyncResult)

/-- `flushBuffer` over all destinations: empty entries are skipped; each
non-empty destination runs its retry loop, its entry being kept exactly when
the loop did not clear it. Returns the buffer after the flush and the
events emitted, destination by destination in buffer order. -/
def flushBufferModel (numRows : String → Nat) (script : String → Nat → Attempt) :
    Buffer → Buffer × List SyncEvent
  | [] => ([], [])
  | (sid, rs) :: rest =>
      let p := flushBufferModel numRows script rest
      if rs.isEmpty then ((sid, rs) :: p.1, p.2)
      else
        let o := flushSheet (numRows sid) rs (script sid)
        (if o.bufferCleared then p.1 else (sid, rs) :: p.1, outcomeEvents sid o ++ p.2)

/-- `resultBuffer[sheetId].push(result)`, creating the entry (at the end, as
JS object key insertion order does) when absent. -/
def insertResult : Buffer → SyncResult → Buffer
  | [], r => [(r.sheetId, [r])]
  | (sid, rs) :: rest, r =>
      if sid = r.sheetId then (sid, rs ++ [r]) :: rest
      else (sid, rs) :: insertResult rest r

/-- Total number of buffered results across all destinations. -/
def totalBuffered : Buffer → Nat
  | [] => 0
  | e :: rest => e.2.length + totalBuffered rest

/-- `bufferResult`: append the result to its destination's buffer; if the
total buffered count reaches the size threshold, cancel the timer, invoke
`flushBuffer` synchronously and rearm the timer, emitting those events. -/
def bufferResult (bufferSize : Nat) (numRows : String → Nat)
    (script : String → Nat → Attempt) (buf : Buffer) (r : SyncResult) :
    Buffer × List SyncEvent :=
  let buf1 := insertResult buf r
  if bufferSize ≤ totalBuffered buf1 then
    ((flushBufferModel numRows script buf1).1,
      [SyncEvent.cancelTimer, SyncEvent.flushCall, SyncEvent.rearmTimer])
  else (buf1, [])

/-- Deliver a sequence of results to `bufferResult` one at a time, recording
the events each delivery emitted. -/
def deliverSeq (bufferSize : Nat) (numRows : String → Nat)
    (script : String → Nat → Attempt) : Buffer → List SyncResult → Buffer × List (List SyncEvent)
  | buf, [] => (buf, [])
  | buf, r :: rest =>
      let p := bufferResult bufferSize numRows script buf r
      let q := deliverSeq bufferSize numRows script p.1 rest
      (q.1, p.2 :: q.2)

/-- The syncer's graceful-shutdown path: cancel the flush timer, flush any
remaining buffered results, close the queue worker, then exit. -/
def shutdownEvents (numRows : String → Nat) (script : String → Nat → Attempt)
    (buf : Buffer) : List SyncEvent :=
  SyncEvent.cancelTimer :: (flushBufferModel numRows script buf).2 ++
    [SyncEvent.closeWorker, SyncEvent.exitProc]

/-! Model of the ScraperEngine (scraper.js): the cookie-session rotation
cursor and the `processUrl` attempt loop. Sessions are abstract (`σ`): their
contents never influence the control flow being verified. -/

/-- The mutable engine state: the immutable session list and the rotation
cursor `currentSessionIndex`. -/
structure EngineState (σ : Type) where
  cookieSessions : List σ
  currentSessionIndex : Nat
  deriving DecidableEq, Repr

/-- `rotateCookie`: with zero or one session, log and report `false` leaving
the state unchanged; otherwise advance the cursor modulo the list length
and report `true`. -/
def rotateCookie {σ : Type} (st : EngineState σ) : EngineState σ × Bool :=
  if st.cookieSessions.length ≤ 1 then (st, false)
  else
    ({ st with currentSessionIndex := (st.currentSessionIndex + 1) % st.cookieSessions.length },
      true)

/-- Call `rotateCookie` n times in sequence, collecting the reported flags. -/
def rotateN {σ : Type} : EngineState σ → Nat → EngineState σ × List Bool
  | st, 0 => (st, [])
  | st, n + 1 =>
      let p := rotateCookie st
      let q := rotateN p.1 n
      (q.1, p.2 :: q.2)

/-- Environment of one `processUrl` attempt: whether navigation landed on a
login/checkpoint redirect, and whether the rest of the attempt raised or
completed with an extracted email (possibly null). -/
structure AttemptEnv where
  redirected : Bool
  result : Except Unit (Option String)

/-- Result of the `processUrl` loop: the returned email (null when all
retries failed), the number of attempts executed, and whether the loop
exited through the success path. -/
structure UrlResult where
  email : Option String
  attempts : Nat
  success : Bool
  deriving DecidableEq, Repr

/-- The `processUrl` attempt loop body: `while (attempt < maxRetries &&
!success)`, incrementing `attempt` at the top of each iteration. A detected
redirect retries with a rotated session when rotation succeeds (otherwise
the attempt proceeds to extraction); a successful extraction returns the
email; an exception rotates (a no-op with at most one session) and retries.
`fuel` equals `maxRetries - attempt`, making the loop structural. -/
def processUrlLoop {σ : Type} (env : Nat → AttemptEnv) :
    EngineState σ → Nat → Nat → UrlResult × EngineState σ
  | st, attempt, 0 => (⟨none, attempt, false⟩, st)
  | st, attempt, fuel + 1 =>
      let a := attempt + 1
      let e := env a
      if e.redirected && (rotateCookie st).2 then
        processUrlLoop env (rotateCookie st).1 a fuel
      else
        match e.result with
        | .ok email => (⟨email, a, true⟩, st)
        | .error _ => processUrlLoop env (rotateCookie st).1 a fuel

/-- `maxRetries` of `processUrl`: the session count when sessions exist,
otherwise 1. -/
def maxRetries {σ : Type} (st : EngineState σ) : Nat :=
  if st.cookieSessions.length > 0 then st.cookieSessions.length else 1

/-- `processUrl`: run the attempt loop from `attempt = 0` with the computed
retry bound. -/
def processUrl {σ : Type} (env : Nat → AttemptEnv) (st : EngineState σ) :
    UrlResult × EngineState σ :=
  processUrlLoop env st 0 (maxRetries st)

/-! Model of the worker service's `scrapeUrl` (worker.js): status mapping of
one scrape attempt. -/

/-- Environment of one `scrapeUrl` call: the page interaction either raises
(navigation/extraction exception) or completes, yielding the sequence of
JSON script tags, each scanned for an email match. -/
inductive ScrapeEnv where
  | throws
  | completes (scripts : List (Option String))
  deriving DecidableEq, Repr

/-- The script-tag scan loop: take the first email match and break;
tags without a match are skipped. -/
def scanScripts : List (Option String) → Option String
  | [] => none
  | none :: rest => scanScripts rest
  | some e :: _ => some e

/-- The `{ email, status }` pair returned by `scrapeUrl`. -/
structure ScrapeResult where
  email : Option String
  status : String
  deriving DecidableEq, Repr

/-- `scrapeUrl`: status starts as "Done"; an exception is caught and sets
"Failed"; completing with no email found sets "Not found"; otherwise the
found email is returned with status "Done". -/
def scrapeUrl : ScrapeEnv → ScrapeResult
  | .throws => ⟨none, "Failed"⟩
  | .completes scripts =>
      match scanScripts scripts with
      | none => ⟨none, "Not found"⟩
      | some e => ⟨some e, "Done"⟩

/-! Model of the Work Queue and the ingestor's deduplicating enqueue. -/

/-- An item of the Work Queue: its deduplication job id, the scrape payload,
and whether it is in a terminal state. -/
structure QueueItem where
  jobId : String
  url : String
  rowIndex : Nat
  sheetId : String
  terminal : Bool
  deriving DecidableEq, Repr

/-- The deduplication job id built by the ingestor and the API server. -/
def dedupKey (sheetId : String) (rowIndex : Nat) : String :=
  sheetId ++ "-row-" ++ toString rowIndex

/-- A freshly enqueued scrape job: keyed by `dedupKey`, non-terminal. -/
def mkScrapeJob (url : String) (rowIndex : Nat) (sheetId : String) : QueueItem :=
  ⟨dedupKey sheetId rowIndex, url, rowIndex, sheetId, false⟩

/-- Modelled from the spec: the Work Queue's `enqueue(task, dedupKey)`
contract (the queue library's jobId deduplication, whose implementation is
not part of this repository) — inserts unless an item with the same dedup
key already exists in a non-terminal state, in which case it is a silent
no-op. -/
def enqueue (q : List QueueItem) (item : QueueItem) : List QueueItem :=
  if q.any (fun j => j.jobId == item.jobId && !j.terminal) then q else q ++ [item]

/-- Number of live (non-terminal) queue items carrying a given dedup key. -/
def liveCount (q : List QueueItem) (key : String) : Nat :=
  (q.filter (fun j => j.jobId == key && !j.terminal)).length

/-! Helper lemmas shared by the claim theorems. -/

/-- When every result references an existing row, the update loop collects
exactly the written form of every result, in order, skipping nothing. -/
theorem updateRows_all_found (numRows : Nat) (rs : List SyncResult)
    (h : ∀ r ∈ rs, rowExists numRows r.rowIndex = true) :
    updateRows numRows rs = (rs.map writtenRow, []) := by
  induction rs with
  | nil => rfl
  | cons r rest ih =>
      have hr : rowExists numRows r.rowIndex = true := h r (by simp)
      have hrest := ih (fun x hx => h x (by simp [hx]))
      simp [updateRows, hr, hrest]

/-- The update loop splits the results by row existence: the rows to save
are the written forms of the results whose row exists, in order, and the
skipped row references are those of the remaining results, in order. -/
theorem updateRows_eq_filter (numRows : Nat) (rs : List SyncResult) :
    updateRows numRows rs =
      ((rs.filter (fun r => rowExists numRows r.rowIndex)).map writtenRow,
        (rs.filter (fun r => !rowExists numRows r.rowIndex)).map (fun r => r.rowIndex)) := by
  induction rs with
  | nil => rfl
  | cons r rest ih =>
      cases hr : rowExists numRows r.rowIndex <;>
        simp [updateRows, List.filter_cons, hr, ih]

/-- A first attempt that succeeds ends the retry loop at once: the rows are
updated, no delay is waited, and the buffer entry is cleared. -/
theorem flushSheet_ok (numRows : Nat) (rs : List SyncResult) (script : Nat → Attempt)
    (h : script 0 = Attempt.ok) :
    flushSheet numRows rs script =
      ⟨(updateRows numRows rs).1, (updateRows numRows rs).2, [], 1, true, false, [none]⟩ := by
  simp [flushSheet, flushLoop, h]

/-- Three consecutive rate-limit failures exhaust the retry loop: backoff
delays of 2000 ms then 4000 ms are waited between the three attempts, no
row is saved, and the buffer entry is kept after every attempt. -/
theorem flushSheet_rateLimited (numRows : Nat) (rs : List SyncResult)
    (script : Nat → Attempt) (h0 : script 0 = Attempt.rateLimit)
    (h1 : script 1 = Attempt.rateLimit) (h2 : script 2 = Attempt.rateLimit) :
    flushSheet numRows rs script =
      ⟨[], [], [2000, 4000], 3, false, true, [some rs, some rs, some rs]⟩ := by
  simp [flushSheet, flushLoop, h0, h1, h2]

/-- Appending one result to the buffer raises the total buffered count by
exactly one. -/
theorem totalBuffered_insertResult (buf : Buffer) (r : SyncResult) :
    totalBuffered (insertResult buf r) = totalBuffered buf + 1 := by
  induction buf with
  | nil => simp [insertResult, totalBuffered]
  | cons e rest ih =>
      obtain ⟨sid, rs⟩ := e
      by_cases hs : sid = r.sheetId <;>
        simp [insertResult, hs, totalBuffered, ih] <;> omega

/-- Delivering a nonempty sequence that brings the total buffered count
exactly to the threshold triggers no flush on any delivery but the last,
and the last delivery cancels the timer, flushes once, and rearms. -/
theorem deliverSeq_events (bufferSize : Nat) (numRows : String → Nat)
    (script : String → Nat → Attempt) (buf : Buffer) (rs : List SyncResult)
    (hlen : totalBuffered buf + rs.length = bufferSize) (hne : rs ≠ []) :
    (deliverSeq bufferSize numRows script buf rs).2 =
      List.replicate (rs.length - 1) [] ++
        [[SyncEvent.cancelTimer, SyncEvent.flushCall, SyncEvent.rearmTimer]] := by
  induction rs generalizing buf with
  | nil => cases hne rfl
  | cons r rest ih =>
      have hins := totalBuffered_insertResult buf r
      cases rest with
      | nil =>
          have hfull : bufferSize ≤ totalBuffered (insertResult buf r) := by
            simp at hlen; omega
          rw [deliverSeq]
          simp only [bufferResult]
          rw [if_pos hfull]
          simp [deliverSeq]
      | cons r2 rest2 =>
          have hlt : ¬ bufferSize ≤ totalBuffered (insertResult buf r) := by
            simp at hlen; omega
          have htail : totalBuffered (insertResult buf r) + (r2 :: rest2).length = bufferSize := by
            simp at hlen ⊢; omega
          have hstep : (deliverSeq bufferSize numRows script buf (r :: r2 :: rest2)).2 =
              [] :: (deliverSeq bufferSize numRows script (insertResult buf r) (r2 :: rest2)).2 := by
            rw [deliverSeq]
            simp only [bufferResult]
            rw [if_neg hlt]
          rw [hstep, ih (insertResult buf r) htail (by simp)]
          simp [List.replicate]

/-- When every destination's first write attempt succeeds and every
buffered result references an existing row, the whole-buffer flush emits
exactly one write per buffered result, destination by destination in buffer
order and within each destination in arrival order. -/
theorem flushBufferModel_all_ok (numRows : String → Nat)
    (script : String → Nat → Attempt) (buf : Buffer)
    (hok : ∀ e ∈ buf, script e.1 0 = Attempt.ok)
    (hrows : ∀ e ∈ buf, ∀ r ∈ e.2, rowExists (numRows e.1) r.rowIndex = true) :
    (flushBufferModel numRows script buf).2 =
      buf.flatMap (fun e => e.2.map (fun r =>
        SyncEvent.write e.1 r.rowIndex (jsOr r.email "Not found") (jsOr r.status "Done"))) := by
  induction buf with
  | nil => rfl
  | cons e rest ih =>
      obtain ⟨sid, rs⟩ := e
      have hrest := ih (fun x hx => hok x (by simp [hx]))
        (fun x hx => hrows x (by simp [hx]))
      by_cases he : rs = []
      · simp [flushBufferModel, he, hrest]
      · have hsheet := flushSheet_ok (numRows sid) rs (fun n => script sid n)
          (hok (sid, rs) (by simp))
        have hupd := updateRows_all_found (numRows sid) rs
          (hrows (sid, rs) (by simp))
        simp [flushBufferModel, he, hsheet, hupd, hrest, outcomeEvents,
          writtenRow, Function.comp]

/-! Claim theorems for the Sink Batcher. -/

/-- Claim C1 as stated is false at a concrete input: with one buffered item
for destination "s" and every write attempt rate-limited, the retries are
exhausted yet the destination's buffered items are kept in the buffer, not
removed. -/
theorem c1_counterexample :
    (flushSheet 1 [⟨"s", 2, some "a@b.c", none⟩] (fun _ => Attempt.rateLimit)).exhausted = true ∧
    (flushSheet 1 [⟨"s", 2, some "a@b.c", none⟩] (fun _ => Attempt.rateLimit)).bufferCleared = false ∧
    (flushBufferModel (fun _ => 1) (fun _ _ => Attempt.rateLimit)
        [("s", [⟨"s", 2, some "a@b.c", none⟩])]).1 =
      [("s", [⟨"s", 2, some "a@b.c", none⟩])] :=
  ⟨rfl, rfl, rfl⟩

/-- Claim C1 (amended): for every destination whose batched write fails
with a rate-limit/quota error, flush retries that same destination up to a
fixed attempt count (three) with exponential backoff (2000 ms then
4000 ms), keeping that destination's buffer intact across retries; and if
the attempts are exhausted, the failure is logged and that destination's
buffered items are kept in the buffer for the next flush cycle, not
dropped. -/
theorem c1_rate_limit_policy (numRows : Nat) (sid : String) (rs : List SyncResult)
    (script : Nat → Attempt) (hne : rs ≠ [])
    (h0 : script 0 = Attempt.rateLimit) (h1 : script 1 = Attempt.rateLimit)
    (h2 : script 2 = Attempt.rateLimit) :
    (flushSheet numRows rs script).attempts = 3 ∧
    (flushSheet numRows rs script).delays = [2000, 4000] ∧
    (flushSheet numRows rs script).trace = [some rs, some rs, some rs] ∧
    (flushSheet numRows rs script).exhausted = true ∧
    (flushBufferModel (fun _ => numRows) (fun _ => script) [(sid, rs)]).1 = [(sid, rs)] := by
  have h := flushSheet_rateLimited numRows rs script h0 h1 h2
  refine ⟨by rw [h], by rw [h], by rw [h], by rw [h], ?_⟩
  simp [flushBufferModel, hne, flushSheet_rateLimited numRows rs (fun n => script n) h0 h1 h2]

/-- Concrete instantiation of the amended claim C1. -/
theorem c1_rate_limit_policy_witness :
    (flushSheet 1 [⟨"s", 2, some "a@b.c", none⟩] (fun _ => Attempt.rateLimit)).attempts = 3 ∧
    (flushSheet 1 [⟨"s", 2, some "a@b.c", none⟩] (fun _ => Attempt.rateLimit)).delays =
      [2000, 4000] ∧
    (flushSheet 1 [⟨"s", 2, some "a@b.c", none⟩] (fun _ => Attempt.rateLimit)).trace =
      [some [⟨"s", 2, some "a@b.c", none⟩], some [⟨"s", 2, some "a@b.c", none⟩],
        some [⟨"s", 2, some "a@b.c", none⟩]] ∧
    (flushSheet 1 [⟨"s", 2, some "a@b.c", none⟩] (fun _ => Attempt.rateLimit)).exhausted = true ∧
    (flushBufferModel (fun _ => 1) (fun _ => fun _ => Attempt.rateLimit)
        [("s", [⟨"s", 2, some "a@b.c", none⟩])]).1 =
      [("s", [⟨"s", 2, some "a@b.c", none⟩])] :=
  c1_rate_limit_policy 1 "s" [⟨"s", 2, some "a@b.c", none⟩] (fun _ => Attempt.rateLimit)
    (by decide) rfl rfl rfl

/-- Claim C3: with the buffer size threshold at 50, delivering 50 outcomes
with no flush interval elapsing triggers no timer or flush action on the
first 49 deliveries, while the 50th delivery cancels the pending timer,
makes exactly one synchronous flush call, and then rearms the timer. -/
theorem c3_threshold_flush (numRows : String → Nat) (script : String → Nat → Attempt)
    (rs : List SyncResult) (hlen : rs.length = 50) :
    (deliverSeq 50 numRows script [] rs).2 =
      List.replicate 49 [] ++
        [[SyncEvent.cancelTimer, SyncEvent.flushCall, SyncEvent.rearmTimer]] := by
  have h := deliverSeq_events 50 numRows script [] rs (by simp [totalBuffered, hlen])
    (by intro hc; rw [hc] at hlen; simp at hlen)
  simpa [hlen] using h

/-- Concrete instantiation of claim C3. -/
theorem c3_threshold_flush_witness :
    (List.replicate 50 (⟨"s", 2, none, none⟩ : SyncResult)).length = 50 ∧
    (deliverSeq 50 (fun _ => 1) (fun _ _ => Attempt.ok) []
        (List.replicate 50 (⟨"s", 2, none, none⟩ : SyncResult))).2 =
      List.replicate 49 [] ++
        [[SyncEvent.cancelTimer, SyncEvent.flushCall, SyncEvent.rearmTimer]] :=
  ⟨by simp, c3_threshold_flush (fun _ => 1) (fun _ _ => Attempt.ok) _ (by simp)⟩

/-- Claim C5 as stated is false at a concrete input: a single outcome whose
row reference has no matching data row is absent from the flushed write
even though the flush succeeds without any failure. -/
theorem c5_counterexample :
    (flushSheet 0 [⟨"s", 5, some "a@b.c", some "Done"⟩] (fun _ => Attempt.ok)).bufferCleared
      = true ∧
    (flushSheet 0 [⟨"s", 5, some "a@b.c", some "Done"⟩] (fun _ => Attempt.ok)).exhausted
      = false ∧
    (flushSheet 0 [⟨"s", 5, some "a@b.c", some "Done"⟩] (fun _ => Attempt.ok)).saved = [] :=
  ⟨rfl, rfl, rfl⟩

/-- Claim C5 (amended): for every sequence of N outcomes delivered to the
Sink Batcher for one destination, if no flush failure occurs, every
outcome whose row reference corresponds to an existing data row is present
in the flushed write for that destination, in arrival order, while
outcomes whose row reference has no matching data row are skipped from the
write; in particular all N outcomes are written, in arrival order, when
every row reference is valid, and the buffer entry is cleared. -/
theorem c5_flush_order (numRows : Nat) (rs : List SyncResult) (script : Nat → Attempt)
    (hok : script 0 = Attempt.ok) :
    (flushSheet numRows rs script).saved =
      (rs.filter (fun r => rowExists numRows r.rowIndex)).map writtenRow ∧
    (flushSheet numRows rs script).skipped =
      (rs.filter (fun r => !rowExists numRows r.rowIndex)).map (fun r => r.rowIndex) ∧
    ((∀ r ∈ rs, rowExists numRows r.rowIndex = true) →
      (flushSheet numRows rs script).saved = rs.map writtenRow) ∧
    (flushSheet numRows rs script).bufferCleared = true := by
  refine ⟨?_, ?_, ?_, ?_⟩
  · simp [flushSheet_ok numRows rs script hok, updateRows_eq_filter]
  · simp [flushSheet_ok numRows rs script hok, updateRows_eq_filter]
  · intro hrows
    simp [flushSheet_ok numRows rs script hok, updateRows_all_found numRows rs hrows]
  · simp [flushSheet_ok numRows rs script hok]

/-- Concrete instantiation of the amended claim C5 on a mixed-validity
sequence: rows 2 and 3 exist and are written in arrival order, row 9 has
no matching data row and is skipped, and the buffer entry is cleared. -/
theorem c5_flush_order_witness :
    (flushSheet 3 [⟨"s", 2, some "x@y.z", none⟩, ⟨"s", 9, none, none⟩,
        ⟨"s", 3, none, some "Failed"⟩] (fun _ => Attempt.ok)).saved =
      (([⟨"s", 2, some "x@y.z", none⟩, ⟨"s", 9, none, none⟩,
          ⟨"s", 3, none, some "Failed"⟩] : List SyncResult).filter
        (fun r => rowExists 3 r.rowIndex)).map writtenRow ∧
    (flushSheet 3 [⟨"s", 2, some "x@y.z", none⟩, ⟨"s", 9, none, none⟩,
        ⟨"s", 3, none, some "Failed"⟩] (fun _ => Attempt.ok)).skipped =
      (([⟨"s", 2, some "x@y.z", none⟩, ⟨"s", 9, none, none⟩,
          ⟨"s", 3, none, some "Failed"⟩] : List SyncResult).filter
        (fun r => !rowExists 3 r.rowIndex)).map (fun r => r.rowIndex) ∧
    ((∀ r ∈ ([⟨"s", 2, some "x@y.z", none⟩, ⟨"s", 9, none, none⟩,
        ⟨"s", 3, none, some "Failed"⟩] : List SyncResult),
        rowExists 3 r.rowIndex = true) →
      (flushSheet 3 [⟨"s", 2, some "x@y.z", none⟩, ⟨"s", 9, none, none⟩,
          ⟨"s", 3, none, some "Failed"⟩] (fun _ => Attempt.ok)).saved =
        ([⟨"s", 2, some "x@y.z", none⟩, ⟨"s", 9, none, none⟩,
          ⟨"s", 3, none, some "Failed"⟩] : List SyncResult).map writtenRow) ∧
    (flushSheet 3 [⟨"s", 2, some "x@y.z", none⟩, ⟨"s", 9, none, none⟩,
        ⟨"s", 3, none, some "Failed"⟩] (fun _ => Attempt.ok)).bufferCleared = true :=
  c5_flush_order 3 [⟨"s", 2, some "x@y.z", none⟩, ⟨"s", 9, none, none⟩,
    ⟨"s", 3, none, some "Failed"⟩] (fun _ => Attempt.ok) rfl

/-- Claim C6: on a shutdown signal with a non-empty buffer, the shutdown
path first cancels the flush timer, then flushes all buffered items (here
every destination's first write attempt succeeds and every item references
an existing row), then closes the queue worker, and only then exits — so
every previously buffered item is written before the process exits. -/
theorem c6_shutdown_flush (numRows : String → Nat) (script : String → Nat → Attempt)
    (buf : Buffer)
    (hok : ∀ e ∈ buf, script e.1 0 = Attempt.ok)
    (hrows : ∀ e ∈ buf, ∀ r ∈ e.2, rowExists (numRows e.1) r.rowIndex = true) :
    shutdownEvents numRows script buf =
      SyncEvent.cancelTimer ::
        (buf.flatMap (fun e => e.2.map (fun r =>
          SyncEvent.write e.1 r.rowIndex (jsOr r.email "Not found") (jsOr r.status "Done"))) ++
          [SyncEvent.closeWorker, SyncEvent.exitProc]) := by
  rw [shutdownEvents, flushBufferModel_all_ok numRows script buf hok hrows]
  simp

/-- Concrete instantiation of claim C6: two destinations, two buffered
items, all written between the timer cancellation and the worker close. -/
theorem c6_shutdown_flush_witness :
    (∀ e ∈ ([("s", [⟨"s", 2, some "x@y.z", none⟩]), ("t", [⟨"t", 3, none, none⟩])] : Buffer),
        (fun _ _ => Attempt.ok : String → Nat → Attempt) e.1 0 = Attempt.ok) ∧
    (∀ e ∈ ([("s", [⟨"s", 2, some "x@y.z", none⟩]), ("t", [⟨"t", 3, none, none⟩])] : Buffer),
        ∀ r ∈ e.2, rowExists ((fun _ => 5 : String → Nat) e.1) r.rowIndex = true) ∧
    shutdownEvents (fun _ => 5) (fun _ _ => Attempt.ok)
        [("s", [⟨"s", 2, some "x@y.z", none⟩]), ("t", [⟨"t", 3, none, none⟩])] =
      SyncEvent.cancelTimer ::
        (([("s", [⟨"s", 2, some "x@y.z", none⟩]), ("t", [⟨"t", 3, none, none⟩])] : Buffer).flatMap
          (fun e => e.2.map (fun r =>
            SyncEvent.write e.1 r.rowIndex (jsOr r.email "Not found") (jsOr r.status "Done"))) ++
          [SyncEvent.closeWorker, SyncEvent.exitProc]) :=
  ⟨by decide, by decide, c6_shutdown_flush _ _ _ (by decide) (by decide)⟩

/-- Claim C8: on three consecutive rate-limit failures flushing the same
destination, the backoff delay before each subsequent retry strictly
increases, doubling from the 2000 ms base, and after each of the three
failed attempts that destination's buffer is non-empty and unchanged in
content. -/
theorem c8_backoff_growth (numRows : Nat) (rs : List SyncResult) (script : Nat → Attempt)
    (hne : rs ≠ []) (h0 : script 0 = Attempt.rateLimit)
    (h1 : script 1 = Attempt.rateLimit) (h2 : script 2 = Attempt.rateLimit) :
    (flushSheet numRows rs script).delays = [2000, 2 * 2000] ∧
    List.Chain' (· < ·) (flushSheet numRows rs script).delays ∧
    (flushSheet numRows rs script).trace = List.replicate 3 (some rs) ∧
    ∀ b ∈ (flushSheet numRows rs script).trace, ∃ l, b = some l ∧ l ≠ [] := by
  have h := flushSheet_rateLimited numRows rs script h0 h1 h2
  refine ⟨by rw [h], ?_, by rw [h]; rfl, ?_⟩
  · rw [h]
    exact List.chain'_cons.mpr ⟨by norm_num, List.chain'_singleton _⟩
  rw [h]
  intro b hb
  simp only [FlushOutcome.trace] at hb
  simp at hb
  exact ⟨rs, hb, hne⟩

/-- Concrete instantiation of claim C8. -/
theorem c8_backoff_growth_witness :
    (flushSheet 1 [⟨"s", 4, none, none⟩] (fun _ => Attempt.rateLimit)).delays =
      [2000, 2 * 2000] ∧
    List.Chain' (· < ·) (flushSheet 1 [⟨"s", 4, none, none⟩] (fun _ => Attempt.rateLimit)).delays ∧
    (flushSheet 1 [⟨"s", 4, none, none⟩] (fun _ => Attempt.rateLimit)).trace =
      List.replicate 3 (some [⟨"s", 4, none, none⟩]) ∧
    ∀ b ∈ (flushSheet 1 [⟨"s", 4, none, none⟩] (fun _ => Attempt.rateLimit)).trace,
      ∃ l, b = some l ∧ l ≠ [] :=
  c8_backoff_growth 1 [⟨"s", 4, none, none⟩] (fun _ => Attempt.rateLimit)
    (by decide) rfl rfl rfl

/-- Claim C10: on a flush whose write attempt succeeds, buffered outcomes
whose row reference has no matching data row are only logged as skipped:
the remaining outcomes are still written, the flush counts as success, the
whole buffer entry (skipped outcomes included) is removed, and the retries
are not exhausted. -/
theorem c10_skip_missing_rows (numRows : Nat) (rs : List SyncResult) (script : Nat → Attempt)
    (hok : script 0 = Attempt.ok) :
    (flushSheet numRows rs script).saved =
      (rs.filter (fun r => rowExists numRows r.rowIndex)).map writtenRow ∧
    (flushSheet numRows rs script).skipped =
      (rs.filter (fun r => !rowExists numRows r.rowIndex)).map (fun r => r.rowIndex) ∧
    (flushSheet numRows rs script).bufferCleared = true ∧
    (flushSheet numRows rs script).exhausted = false := by
  simp [flushSheet_ok numRows rs script hok, updateRows_eq_filter]

/-- Concrete instantiation of claim C10: row 2 exists and is written, row 9
does not exist and is skipped, and the buffer entry is cleared. -/
theorem c10_skip_missing_rows_witness :
    (flushSheet 1 [⟨"s", 2, some "x@y.z", none⟩, ⟨"s", 9, none, none⟩]
        (fun _ => Attempt.ok)).saved =
      (([⟨"s", 2, some "x@y.z", none⟩, ⟨"s", 9, none, none⟩] : List SyncResult).filter
        (fun r => rowExists 1 r.rowIndex)).map writtenRow ∧
    (flushSheet 1 [⟨"s", 2, some "x@y.z", none⟩, ⟨"s", 9, none, none⟩]
        (fun _ => Attempt.ok)).skipped =
      (([⟨"s", 2, some "x@y.z", none⟩, ⟨"s", 9, none, none⟩] : List SyncResult).filter
        (fun r => !rowExists 1 r.rowIndex)).map (fun r => r.rowIndex) ∧
    (flushSheet 1 [⟨"s", 2, some "x@y.z", none⟩, ⟨"s", 9, none, none⟩]
        (fun _ => Attempt.ok)).bufferCleared = true ∧
    (flushSheet 1 [⟨"s", 2, some "x@y.z", none⟩, ⟨"s", 9, none, none⟩]
        (fun _ => Attempt.ok)).exhausted = false :=
  c10_skip_missing_rows 1 [⟨"s", 2, some "x@y.z", none⟩, ⟨"s", 9, none, none⟩]
    (fun _ => Attempt.ok) rfl

/-! Claim theorems for the scraping engine, the worker and the queue. -/

/-- Claim C7: with a session list of length zero or one, every rotation
call leaves the engine state — rotation cursor included — unchanged and
reports the no-op by returning false, and repeating the call any number of
times never changes this behavior. -/
theorem c7_rotate_noop {σ : Type} (st : EngineState σ) (n : Nat)
    (h : st.cookieSessions.length ≤ 1) :
    rotateN st n = (st, List.replicate n false) := by
  induction n with
  | zero => rfl
  | succ n ih => simp [rotateN, rotateCookie, h, ih, List.replicate]

/-- Concrete instantiation of claim C7: one session, three rotations. -/
theorem c7_rotate_noop_witness :
    (⟨[()], 0⟩ : EngineState Unit).cookieSessions.length ≤ 1 ∧
    rotateN (⟨[()], 0⟩ : EngineState Unit) 3 = (⟨[()], 0⟩, List.replicate 3 false) :=
  ⟨by decide, c7_rotate_noop _ 3 (by decide)⟩

/-- The attempt loop makes at most `attempt + fuel` attempts and exits
through the success path or with the counter at the bound. -/
theorem processUrlLoop_bound {σ : Type} (env : Nat → AttemptEnv) (fuel : Nat) :
    ∀ (st : EngineState σ) (attempt : Nat),
      (processUrlLoop env st attempt fuel).1.attempts ≤ attempt + fuel ∧
      ((processUrlLoop env st attempt fuel).1.success = true ∨
        (processUrlLoop env st attempt fuel).1.attempts = attempt + fuel) := by
  induction fuel with
  | zero => intro st attempt; simp [processUrlLoop]
  | succ fuel ih =>
      intro st attempt
      rw [processUrlLoop]
      by_cases hred : ((env (attempt + 1)).redirected && (rotateCookie st).2) = true
      · rw [if_pos hred]
        have h := ih (rotateCookie st).1 (attempt + 1)
        refine ⟨by omega, ?_⟩
        rcases h.2 with hs | he
        · exact Or.inl hs
        · exact Or.inr (by omega)
      · rw [if_neg hred]
        cases hres : (env (attempt + 1)).result with
        | ok email => exact ⟨by dsimp only; omega, Or.inl rfl⟩
        | error e =>
            dsimp only
            have h := ih (rotateCookie st).1 (attempt + 1)
            refine ⟨by omega, ?_⟩
            rcases h.2 with hs | he
            · exact Or.inl hs
            · exact Or.inr (by omega)

/-- Claim C9: for every URL-attempt environment and session list, the
scrape attempt loop executes at most max(1, number of sessions) attempts
and terminates, exiting either through the success path or with the
attempt counter at the bound. -/
theorem c9_attempt_bound {σ : Type} (env : Nat → AttemptEnv) (st : EngineState σ) :
    (processUrl env st).1.attempts ≤ max 1 st.cookieSessions.length ∧
    ((processUrl env st).1.success = true ∨
      (processUrl env st).1.attempts = max 1 st.cookieSessions.length) := by
  have hmr : maxRetries st = max 1 st.cookieSessions.length := by
    rw [maxRetries]; split <;> omega
  have h := processUrlLoop_bound env (maxRetries st) st 0
  rw [processUrl, hmr]
  rw [hmr] at h
  simpa using h

/-- Claim C4: for every task processed by the scrape worker, the outcome
status is "Not found" exactly when extraction completed without an
unrecovered exception but found no email, "Failed" exactly when the
attempt raised an unrecovered exception, and "Done" exactly when
extraction succeeded with an email value. -/
theorem c4_status_mapping (env : ScrapeEnv) :
    ((scrapeUrl env).status = "Not found" ↔
      ∃ scripts, env = ScrapeEnv.completes scripts ∧ scanScripts scripts = none) ∧
    ((scrapeUrl env).status = "Failed" ↔ env = ScrapeEnv.throws) ∧
    ((scrapeUrl env).status = "Done" ↔
      ∃ scripts e, env = ScrapeEnv.completes scripts ∧ scanScripts scripts = some e) := by
  cases env with
  | throws =>
      refine ⟨?_, ?_, ?_⟩ <;> simp [scrapeUrl]
  | completes scripts =>
      cases h : scanScripts scripts with
      | none => refine ⟨?_, ?_, ?_⟩ <;> simp [scrapeUrl, h]
      | some e => refine ⟨?_, ?_, ?_⟩ <;> simp [scrapeUrl, h]

/-- Claim C2: two enqueues of tasks carrying the same destination sheet and
row index build the same dedup job id; starting from a queue with no live
item for that key, the first enqueue inserts the task and the second is a
silent no-op, so the Work Queue holds exactly one live item for that key. -/
theorem c2_dedup_idempotent (q : List QueueItem) (u1 u2 sid : String) (ri : Nat)
    (hfresh : liveCount q (dedupKey sid ri) = 0) :
    enqueue (enqueue q (mkScrapeJob u1 ri sid)) (mkScrapeJob u2 ri sid) =
      enqueue q (mkScrapeJob u1 ri sid) ∧
    liveCount (enqueue (enqueue q (mkScrapeJob u1 ri sid)) (mkScrapeJob u2 ri sid))
      (dedupKey sid ri) = 1 := by
  have hfil : q.filter (fun j => j.jobId == dedupKey sid ri && !j.terminal) = [] :=
    List.length_eq_zero.mp hfresh
  have hany : q.any (fun j => j.jobId == dedupKey sid ri && !j.terminal) = false := by
    cases hq : q.any (fun j => j.jobId == dedupKey sid ri && !j.terminal) with
    | false => rfl
    | true =>
        rw [List.any_eq_true] at hq
        obtain ⟨j, hj, hpj⟩ := hq
        have hmem : j ∈ q.filter (fun j => j.jobId == dedupKey sid ri && !j.terminal) :=
          List.mem_filter.mpr ⟨hj, hpj⟩
        rw [hfil] at hmem
        exact absurd hmem (List.not_mem_nil j)
  have henq1 : enqueue q (mkScrapeJob u1 ri sid) = q ++ [mkScrapeJob u1 ri sid] := by
    rw [enqueue]
    simp only [mkScrapeJob]
    rw [hany]
    simp
  have henq2 : enqueue (q ++ [mkScrapeJob u1 ri sid]) (mkScrapeJob u2 ri sid) =
      q ++ [mkScrapeJob u1 ri sid] := by
    rw [enqueue]
    have : ((q ++ [mkScrapeJob u1 ri sid]).any
        (fun j => j.jobId == (mkScrapeJob u2 ri sid).jobId && !j.terminal)) = true := by
      rw [List.any_append]
      simp [mkScrapeJob]
    rw [this]
    simp
  have hlc : liveCount (q ++ [mkScrapeJob u1 ri sid]) (dedupKey sid ri) = 1 := by
    rw [liveCount, List.filter_append, hfil]
    simp [mkScrapeJob]
  exact ⟨by rw [henq1, henq2], by rw [henq1, henq2, hlc]⟩

/-- Concrete instantiation of claim C2: the empty queue, two tasks for row
2 of the same sheet with different URLs. -/
theorem c2_dedup_idempotent_witness :
    liveCount [] (dedupKey "sheet1" 2) = 0 ∧
    (enqueue (enqueue [] (mkScrapeJob "https://a" 2 "sheet1")) (mkScrapeJob "https://b" 2 "sheet1") =
      enqueue [] (mkScrapeJob "https://a" 2 "sheet1") ∧
    liveCount (enqueue (enqueue [] (mkScrapeJob "https://a" 2 "sheet1"))
        (mkScrapeJob "https://b" 2 "sheet1")) (dedupKey "sheet1" 2) = 1) :=
  ⟨rfl, c2_dedup_idempotent [] "https://a" "https://b" "sheet1" 2 rfl⟩

end FbScraper
